import Mathlib

/-!
Verification of the Whispers backend (Flask + SQLAlchemy inbox/message
service).  The shallow embedding below follows `src/app/models.py`,
`src/app/routes.py` and `src/app/__init__.py`: ORM rows become structures
with `Option` fields for columns that are unset until assigned, the
database session's commit becomes explicit insert/update functions that
enforce the schema's `nullable=False` and `unique=True` constraints, and
each route handler becomes a function from a store (plus the request data)
to a response and a new store.
-/

namespace Whispers

/-- A JSON value as produced by `jsonify` on the dictionaries built in
`models.py` (strings, booleans, nulls and timestamps). -/
inductive JVal where
  | str (s : String)
  | bool (b : Bool)
  | nullv
  | nat (n : Nat)
deriving Repr, DecidableEq

/-- A JSON response body: an object, a list of objects, or the empty body
of a 204 response. -/
inductive Body where
  | obj (fields : List (String × JVal))
  | arr (items : List (List (String × JVal)))
  | empty
deriving Repr, DecidableEq

/-- An HTTP response: status code and JSON body. -/
structure Resp where
  status : Nat
  body : Body
deriving Repr, DecidableEq

/-- The error-body shape `{"message": <string>}` used by every handler. -/
def jsonMsg (m : String) : Body := .obj [("message", .str m)]

/-- `jsonify(...)` of a nullable string column. -/
def optJ : Option String → JVal
  | none => .nullv
  | some v => .str v

/-- Look a key up in an object body. -/
def jsonLookup (k : String) : Body → Option JVal
  | .obj fields => (fields.find? (fun kv => kv.fst == k)).map Prod.snd
  | _ => none

/-- The Python truthiness test `field in data and data[field]` used by the
handlers' required-field checks (`"name" not in data or not data["name"]`
is its negation): present and not the empty string. -/
def presentNonEmpty : Option String → Bool
  | none => false
  | some v => v != ""

/-- Modelled from the spec: bcrypt (an external collaborator) is an opaque
one-way hash-and-verify capability with `verify(p, hash(p)) = true` and
`verify(q, hash(p)) = false` for `q ≠ p`.  The digest is modelled as a
tagged copy of the plaintext. -/
def bcryptHash (p : String) : String := "bcrypt-digest:" ++ p

/-- Modelled from the spec: `verify(plaintext, digest)`, the check behind
`bcrypt.checkpw` / `bcrypt.check_password_hash`. -/
def bcryptCheck (digest p : String) : Bool := digest == bcryptHash p

/-- `Base.id` in `models.py` is declared
`db.Column(db.String(36), primary_key=True, default=str(uuid.uuid4()))`.
The default expression `str(uuid.uuid4())` is evaluated once, when the
class body is executed at import time, so the column default is this one
fixed string for every row of every table. -/
def baseDefaultId : String := "3f2b8c1d-9a4e-4b6f-8c2d-5e7a1b9c0d43"

/-- A row of the `users` table (`models.py`, class `User`).  Columns that
are `nullable=False` in the schema are still unset (`none`) on a freshly
constructed `User()` object until `from_dict` assigns them. -/
structure UserRow where
  id : String
  is_active : Bool := true
  username : Option String := none
  email : Option String := none
  password : Option String := none
  created_at : Nat := 0
  updated_at : Nat := 0
deriving Repr, DecidableEq

/-- The JSON payload accepted by the user handlers. -/
structure UserData where
  username : Option String := none
  email : Option String := none
  password : Option String := none
deriving Repr, DecidableEq

/-- `User.from_dict` (`models.py` lines 64-69): copies `username` and
`email` when present, and stores the bcrypt hash of `password` when
present (`set_password`). -/
def UserRow.from_dict (u : UserRow) (d : UserData) : UserRow :=
  let u1 := match d.username with
    | some v => { u with username := some v }
    | none => u
  let u2 := match d.email with
    | some v => { u1 with email := some v }
    | none => u1
  match d.password with
  | some v => { u2 with password := some (bcryptHash v) }
  | none => u2

/-- `User.to_dict` (`models.py` lines 55-62): the public representation,
exactly `id`, `username`, `email`, `created_at`, `updated_at`. -/
def UserRow.to_dict (u : UserRow) : List (String × JVal) :=
  [ ("id", .str u.id)
  , ("username", optJ u.username)
  , ("email", optJ u.email)
  , ("created_at", .nat u.created_at)
  , ("updated_at", .nat u.updated_at) ]

/-- A row of the `inboxes` table (`models.py`, class `Inbox`).  `name`,
`user_id` and `url` are all `nullable=False` in the schema but unset on a
freshly constructed `Inbox()`. -/
structure InboxRow where
  id : String
  name : Option String := none
  user_id : Option String := none
  url : Option String := none
  created_at : Nat := 0
  updated_at : Nat := 0
deriving Repr, DecidableEq

/-- The JSON payload accepted by the inbox handlers. -/
structure InboxData where
  name : Option String := none
  user_id : Option String := none
  url : Option String := none
deriving Repr, DecidableEq

/-- `Inbox.from_dict` (`models.py` lines 109-114): copies `name` and
`user_id` when present, and also copies `url` from the data when the key
is present. -/
def InboxRow.from_dict (b : InboxRow) (d : InboxData) : InboxRow :=
  let b1 := match d.name with
    | some v => { b with name := some v }
    | none => b
  let b2 := match d.user_id with
    | some v => { b1 with user_id := some v }
    | none => b1
  match d.url with
  | some v => { b2 with url := some v }
  | none => b2

/-- `Inbox.to_dict` (`models.py` lines 99-107): the `url` field of the
representation is recomputed as `f"/inboxes/{self.id}"`; the stored `url`
column is not consulted. -/
def InboxRow.to_dict (b : InboxRow) : List (String × JVal) :=
  [ ("id", .str b.id)
  , ("name", optJ b.name)
  , ("user_id", optJ b.user_id)
  , ("created_at", .nat b.created_at)
  , ("updated_at", .nat b.updated_at)
  , ("url", .str ("/inboxes/" ++ b.id)) ]

/-- A row of the `messages` table (`models.py`, class `Message`).  All of
`subject`, `body`, `read`, `inbox_id` are nullable; `read` has column
default `False`, applied at insert when unset. -/
structure MessageRow where
  id : String
  subject : Option String := none
  body : Option String := none
  read : Option Bool := none
  inbox_id : Option String := none
  created_at : Nat := 0
  updated_at : Nat := 0
deriving Repr, DecidableEq

/-- The JSON payload accepted by the message handler. -/
structure MessageData where
  subject : Option String := none
  body : Option String := none
  read : Option Bool := none
  inbox_id : Option String := none
deriving Repr, DecidableEq

/-- `Message.from_dict` (`models.py` lines 147-150): copies `subject`,
`body`, `read` and `inbox_id` when present. -/
def MessageRow.from_dict (m : MessageRow) (d : MessageData) : MessageRow :=
  let m1 := match d.subject with
    | some v => { m with subject := some v }
    | none => m
  let m2 := match d.body with
    | some v => { m1 with body := some v }
    | none => m1
  let m3 := match d.read with
    | some v => { m2 with read := some v }
    | none => m2
  match d.inbox_id with
  | some v => { m3 with inbox_id := some v }
  | none => m3

/-- `Message.to_dict` (`models.py` lines 136-145). -/
def MessageRow.to_dict (m : MessageRow) : List (String × JVal) :=
  [ ("id", .str m.id)
  , ("subject", optJ m.subject)
  , ("body", optJ m.body)
  , ("read", match m.read with | none => .nullv | some b => .bool b)
  , ("inbox_id", optJ m.inbox_id)
  , ("created_at", .nat m.created_at)
  , ("updated_at", .nat m.updated_at) ]

/-- The committed contents of the relational store: the three tables. -/
structure Store where
  users : List UserRow := []
  inboxes : List InboxRow := []
  messages : List MessageRow := []
deriving Repr, DecidableEq

/-- `db.session.commit()` of a pending `users` INSERT.  Enforces the
schema of `models.py`: `username`, `email`, `password` are
`nullable=False`; `id` is the primary key; `email` is `unique=True`.
On violation the commit raises and the handler rolls back. -/
def usersInsert (s : Store) (u : UserRow) : Except String Store :=
  if u.username = none then .error "NOT NULL constraint failed: users.username"
  else if u.email = none then .error "NOT NULL constraint failed: users.email"
  else if u.password = none then .error "NOT NULL constraint failed: users.password"
  else if s.users.any (fun x => x.id == u.id) then
    .error "UNIQUE constraint failed: users.id"
  else if s.users.any (fun x => x.email == u.email) then
    .error "UNIQUE constraint failed: users.email"
  else .ok { s with users := s.users ++ [u] }

/-- `db.session.commit()` of a pending UPDATE of the user row `uid`. -/
def usersUpdate (s : Store) (uid : String) (u2 : UserRow) : Except String Store :=
  if u2.username = none then .error "NOT NULL constraint failed: users.username"
  else if u2.email = none then .error "NOT NULL constraint failed: users.email"
  else if u2.password = none then .error "NOT NULL constraint failed: users.password"
  else if s.users.any (fun x => x.id != uid && x.email == u2.email) then
    .error "UNIQUE constraint failed: users.email"
  else .ok { s with users := s.users.map (fun x => if x.id == uid then u2 else x) }

/-- `db.session.commit()` of a pending `inboxes` INSERT.  Enforces the
schema of `models.py` lines 81-85: `name`, `user_id`, `url` are all
`nullable=False`; `id` is the primary key; `name` and `url` are
`unique=True` (globally). -/
def inboxesInsert (s : Store) (b : InboxRow) : Except String Store :=
  if b.name = none then .error "NOT NULL constraint failed: inboxes.name"
  else if b.user_id = none then .error "NOT NULL constraint failed: inboxes.user_id"
  else if b.url = none then .error "NOT NULL constraint failed: inboxes.url"
  else if s.inboxes.any (fun x => x.id == b.id) then
    .error "UNIQUE constraint failed: inboxes.id"
  else if s.inboxes.any (fun x => x.name == b.name) then
    .error "UNIQUE constraint failed: inboxes.name"
  else if s.inboxes.any (fun x => x.url == b.url) then
    .error "UNIQUE constraint failed: inboxes.url"
  else .ok { s with inboxes := s.inboxes ++ [b] }

/-- `db.session.commit()` of a pending UPDATE of the inbox row `bid`. -/
def inboxesUpdate (s : Store) (bid : String) (b2 : InboxRow) : Except String Store :=
  if b2.name = none then .error "NOT NULL constraint failed: inboxes.name"
  else if b2.user_id = none then .error "NOT NULL constraint failed: inboxes.user_id"
  else if b2.url = none then .error "NOT NULL constraint failed: inboxes.url"
  else if s.inboxes.any (fun x => x.id != bid && x.name == b2.name) then
    .error "UNIQUE constraint failed: inboxes.name"
  else if s.inboxes.any (fun x => x.id != bid && x.url == b2.url) then
    .error "UNIQUE constraint failed: inboxes.url"
  else .ok { s with inboxes := s.inboxes.map (fun x => if x.id == bid then b2 else x) }

/-- `db.session.commit()` of a pending `messages` INSERT.  The only schema
constraint on `messages` beyond the primary key is the column default
`read=False`, applied when `read` was not assigned.  Returns the row as
inserted together with the new store. -/
def messagesInsert (s : Store) (m : MessageRow) : Except String (MessageRow × Store) :=
  if s.messages.any (fun x => x.id == m.id) then
    .error "UNIQUE constraint failed: messages.id"
  else
    let inserted := { m with read := some (m.read.getD false) }
    .ok (inserted, { s with messages := s.messages ++ [inserted] })

/-- `user.inboxes` relationship: the inboxes whose `user_id` is this
user's id. -/
def userInboxes (s : Store) (uid : String) : List InboxRow :=
  s.inboxes.filter (fun b => b.user_id == some uid)

/-- `inbox.messages` relationship: the messages whose `inbox_id` is this
inbox's id. -/
def inboxMessages (s : Store) (bid : String) : List MessageRow :=
  s.messages.filter (fun m => m.inbox_id == some bid)

/-- `GET /users/<user_id>` (`routes.py` lines 38-56). -/
def get_user (s : Store) (uid : String) : Resp :=
  match s.users.find? (fun x => x.id == uid) with
  | none => ⟨404, jsonMsg "User not found"⟩
  | some u => ⟨200, .obj u.to_dict⟩

/-- `POST /users` (`routes.py` lines 59-89).  `newId` is the identifier
the store's column default supplies at insert time; the route always
passes `baseDefaultId` (see `create_user_route`). -/
def create_user (s : Store) (d : UserData) (newId : String) : Resp × Store :=
  if !(presentNonEmpty d.username) then (⟨400, jsonMsg "Username is required"⟩, s)
  else if !(presentNonEmpty d.email) then (⟨400, jsonMsg "Email is required"⟩, s)
  else if !(presentNonEmpty d.password) then (⟨400, jsonMsg "Password is required"⟩, s)
  else if (s.users.find? (fun x => x.email == d.email)).isSome then
    (⟨400, jsonMsg "Email already exists"⟩, s)
  else
    let user := UserRow.from_dict { id := newId } d
    match usersInsert s user with
    | .error e => (⟨500, jsonMsg e⟩, s)
    | .ok s2 => (⟨201, .obj user.to_dict⟩, s2)

/-- `POST /users` as actually wired: the id assigned at insert is the
class-level default `baseDefaultId`, the same string on every call. -/
def create_user_route (s : Store) (d : UserData) : Resp × Store :=
  create_user s d baseDefaultId

/-- `PUT /users/<user_id>` (`routes.py` lines 92-121). -/
def update_user (s : Store) (uid : String) (d : UserData) : Resp × Store :=
  if !(presentNonEmpty d.username) then (⟨400, jsonMsg "Username is required"⟩, s)
  else if !(presentNonEmpty d.email) then (⟨400, jsonMsg "Email is required"⟩, s)
  else if !(presentNonEmpty d.password) then (⟨400, jsonMsg "Password is required"⟩, s)
  else match s.users.find? (fun x => x.id == uid) with
  | none => (⟨404, jsonMsg "User not found"⟩, s)
  | some u =>
    if (s.users.find? (fun x => x.email == d.email)).isSome then
      (⟨400, jsonMsg "Email already exists"⟩, s)
    else
      let u2 := u.from_dict d
      match usersUpdate s uid u2 with
      | .error e => (⟨500, jsonMsg e⟩, s)
      | .ok s2 => (⟨200, .obj u2.to_dict⟩, s2)

/-- An authenticated session, the binding `flask_login` keeps between a
request context and a user id. -/
structure Session where
  user_id : String
  expires_at : Nat
deriving Repr, DecidableEq

/-- Modelled from the spec: `login_user(user, duration=timedelta(days=1))`
at `routes.py` line 402 hands session issuance to flask-login (an external
collaborator); per the spec the issued session is bound to the user id
with a fixed 24-hour lifetime from the moment of login. -/
def login_user (u : UserRow) (now : Nat) : Session :=
  ⟨u.id, now + 24 * 60 * 60⟩

/-- Modelled from the spec: `resolve(request)` — flask-login validates the
session token and its expiry, then calls `load_user` of
`src/app/__init__.py` lines 34-38, which is `User.query.get(user_id)`.
Returns the authenticated user, or `none` (`Unauthenticated`) when the
session is absent or expired. -/
def resolve (s : Store) (sess : Option Session) (now : Nat) : Option UserRow :=
  match sess with
  | none => none
  | some t =>
    if now < t.expires_at then s.users.find? (fun x => x.id == t.user_id)
    else none

/-- `POST /login` (`routes.py` lines 381-403).  The credential check
`bcrypt.check_password_hash` runs inside a `try` whose handler also
answers `Invalid credentials`, so a stored `NULL` password resolves to the
same 400.  On success the handler calls `login_user` and returns the
user's public representation. -/
def login (s : Store) (email password : Option String) (now : Nat) :
    Resp × Option Session :=
  if !(presentNonEmpty email) then (⟨400, jsonMsg "Email is required"⟩, none)
  else if !(presentNonEmpty password) then (⟨400, jsonMsg "Password is required"⟩, none)
  else match s.users.find? (fun x => x.email == email) with
  | none => (⟨400, jsonMsg "Invalid credentials"⟩, none)
  | some u =>
    match u.password, password with
    | some digest, some pw =>
      if bcryptCheck digest pw then (⟨200, .obj u.to_dict⟩, some (login_user u now))
      else (⟨400, jsonMsg "Invalid credentials"⟩, none)
    | _, _ => (⟨400, jsonMsg "Invalid credentials"⟩, none)

/-- `GET|POST /register` (`routes.py` lines 342-378).  `authenticated` is
`current_user.is_authenticated`; `methodPost` is whether the request
method is POST; `newId` is the id the insert-time column default assigns
(always `baseDefaultId` in the wired application). -/
def register (s : Store) (authenticated methodPost : Bool) (form : UserData)
    (newId : String) : Resp × Store :=
  if authenticated then (⟨400, jsonMsg "Already logged in"⟩, s)
  else if methodPost then
    if !(presentNonEmpty form.email) then (⟨400, jsonMsg "Email is required"⟩, s)
    else if !(presentNonEmpty form.password) then (⟨400, jsonMsg "Password is required"⟩, s)
    else if !(presentNonEmpty form.username) then (⟨400, jsonMsg "Username is required"⟩, s)
    else if (s.users.find? (fun x => x.email == form.email)).isSome then
      (⟨400, jsonMsg "Email already exists"⟩, s)
    else
      let user := UserRow.from_dict { id := newId } form
      match usersInsert s user with
      | .error e => (⟨500, jsonMsg e⟩, s)
      | .ok s2 => (⟨201, .obj user.to_dict⟩, s2)
  else (⟨200, jsonMsg "Register"⟩, s)

/-- `GET /account` (`routes.py` lines 421-430).  `@login_required` makes
flask-login reject an unresolved identity with 401 before the handler
body runs; otherwise the body returns `current_user.to_dict()`. -/
def account (s : Store) (sess : Option Session) (now : Nat) : Resp :=
  match resolve s sess now with
  | none => ⟨401, jsonMsg "Unauthorized"⟩
  | some u => ⟨200, .obj u.to_dict⟩

/-- `POST /users/<user_id>/inboxes` (`routes.py` lines 165-202).
Line 182 evaluates `data["name"]` without a presence check, so a body
with no `name` key raises `KeyError`, answered by the blueprint's
`unhandled_exception` handler (lines 446-448) with status 500.  On the
main path the handler commits twice: first the bare `Inbox()` with only
`user_id` assigned (lines 190-195), then, after deriving the url, the
`from_dict` update (lines 196-198).  `base_url` is `getenv("BASE_URL")`;
`newId` is the id the insert-time column default assigns. -/
def create_inbox (s : Store) (uid : String) (d : InboxData) (base_url : String)
    (newId : String) : Resp × Store :=
  match d.name with
  | none => (⟨500, jsonMsg "KeyError: name"⟩, s)
  | some nm =>
    if nm == "" then (⟨400, jsonMsg "Name is required"⟩, s)
    else match s.users.find? (fun x => x.id == uid) with
    | none => (⟨404, jsonMsg "User not found"⟩, s)
    | some user =>
      if (userInboxes s user.id).any (fun b => b.name == some nm) then
        (⟨400, jsonMsg "Inbox already exists"⟩, s)
      else
        let inbox : InboxRow := { id := newId, user_id := some user.id }
        match inboxesInsert s inbox with
        | .error e => (⟨500, jsonMsg e⟩, s)
        | .ok s1 =>
          let d2 : InboxData :=
            { d with user_id := some user.id
                   , url := some (base_url ++ "/inboxes/" ++ inbox.id) }
          let inbox2 := inbox.from_dict d2
          match inboxesUpdate s1 inbox.id inbox2 with
          | .error e => (⟨500, jsonMsg e⟩, s1)
          | .ok s2 => (⟨201, .obj inbox2.to_dict⟩, s2)

/-- `GET /inboxes/<inbox_id>` (`routes.py` lines 205-227).  `curId` is the
authenticated `current_user.id`. -/
def get_inbox (s : Store) (curId inbox_id : String) : Resp :=
  match s.inboxes.find? (fun x => x.id == inbox_id) with
  | none => ⟨404, jsonMsg "Inbox not found"⟩
  | some b =>
    if b.user_id != some curId then ⟨401, jsonMsg "Unauthorized"⟩
    else ⟨200, .obj b.to_dict⟩

/-- `PUT /inboxes/<inbox_id>` (`routes.py` lines 230-259).  The body
validation (line 246) runs before the lookup and the ownership check;
on success the handler applies `Inbox.from_dict` — which also copies a
client-supplied `url` — and commits. -/
def update_inbox (s : Store) (curId inbox_id : String) (d : InboxData) :
    Resp × Store :=
  if !(presentNonEmpty d.name) then (⟨400, jsonMsg "Name is required"⟩, s)
  else match s.inboxes.find? (fun x => x.id == inbox_id) with
  | none => (⟨404, jsonMsg "Inbox not found"⟩, s)
  | some b =>
    if b.user_id != some curId then (⟨401, jsonMsg "Unauthorized"⟩, s)
    else
      let b2 := b.from_dict d
      match inboxesUpdate s b.id b2 with
      | .error e => (⟨500, jsonMsg e⟩, s)
      | .ok s2 => (⟨200, .obj b2.to_dict⟩, s2)

/-- `DELETE /inboxes/<inbox_id>` (`routes.py` lines 262-287).  Deleting
an inbox cascades to its messages (`cascade="all, delete-orphan"`,
`models.py` lines 92-94). -/
def delete_inbox (s : Store) (curId inbox_id : String) : Resp × Store :=
  match s.inboxes.find? (fun x => x.id == inbox_id) with
  | none => (⟨404, jsonMsg "Inbox not found"⟩, s)
  | some b =>
    if b.user_id != some curId then (⟨401, jsonMsg "Unauthorized"⟩, s)
    else
      (⟨204, .empty⟩,
       { s with inboxes := s.inboxes.filter (fun x => x.id != b.id)
              , messages := s.messages.filter (fun m => m.inbox_id != some b.id) })

/-- Line 306 of `routes.py`: `user_id = data.get("user_id")` where `data`
is `request.headers.get("User-Id")` — a `str` when the header is present
and `None` otherwise.  Neither type has a `.get` method, so the attribute
access raises `AttributeError` on every request. -/
def headerUserIdGet : Option String → Except String String
  | none => .error "AttributeError: NoneType object has no attribute get"
  | some _ => .error "AttributeError: str object has no attribute get"

/-- `GET /inboxes/<inbox_id>/messages` (`routes.py` lines 290-311).  The
handler has no `try`; the `AttributeError` raised at line 306 propagates
to the blueprint's `unhandled_exception` handler (lines 446-448), which
answers `{"message": str(e)}` with status 500. -/
def get_messages (s : Store) (inbox_id : String) (userIdHeader : Option String) : Resp :=
  let inbox := s.inboxes.find? (fun x => x.id == inbox_id)
  match headerUserIdGet userIdHeader with
  | .error e => ⟨500, jsonMsg e⟩
  | .ok user_id =>
    match inbox with
    | none => ⟨404, jsonMsg "Inbox not found"⟩
    | some b =>
      if b.user_id != some user_id then ⟨401, jsonMsg "Unauthorized"⟩
      else ⟨200, .arr ((inboxMessages s b.id).map MessageRow.to_dict)⟩

/-- `POST /inboxes/<inbox_id>/messages` (`routes.py` lines 314-338).
`message.from_dict(data)` copies any client-supplied `inbox_id`, then
`inbox.messages.append(message)` rebinds the message to the path inbox,
so the relationship's foreign key wins at commit.  `newId` is the id the
insert-time column default assigns. -/
def create_message (s : Store) (inbox_id : String) (d : MessageData)
    (newId : String) : Resp × Store :=
  match s.inboxes.find? (fun x => x.id == inbox_id) with
  | none => (⟨404, jsonMsg "Inbox not found"⟩, s)
  | some b =>
    let m0 := MessageRow.from_dict { id := newId } d
    let m := { m0 with inbox_id := some b.id }
    match messagesInsert s m with
    | .error e => (⟨500, jsonMsg e⟩, s)
    | .ok ms2 => (⟨201, .obj ms2.fst.to_dict⟩, ms2.snd)

/-! ### Concrete scenario used by the closed theorems and witnesses -/

/-- A registered user who owns the inbox `i1`. -/
def userA : UserRow :=
  { id := "uA", username := some "a", email := some "a@x"
  , password := some (bcryptHash "pwA") }

/-- A second registered user, owning no inbox. -/
def userB : UserRow :=
  { id := "uB", username := some "b", email := some "b@x"
  , password := some (bcryptHash "pwB") }

/-- An inbox named `work`, owned by `userA`, with the url the server
derived at creation time from base `http://h`. -/
def inboxWork : InboxRow :=
  { id := "i1", name := some "work", user_id := some "uA"
  , url := some "http://h/inboxes/i1" }

/-- One committed message in `inboxWork`. -/
def msgHello : MessageRow :=
  { id := "m0", subject := some "hello", body := some "secret text"
  , read := some false, inbox_id := some "i1" }

/-- The committed store of the scenario. -/
def demoStore : Store :=
  { users := [userA, userB], inboxes := [inboxWork], messages := [msgHello] }

/-- Payload of the first user-creation call of the C2 scenario. -/
def aliceData : UserData :=
  { username := some "alice", email := some "a@x.com", password := some "pw1" }

/-- Payload of the second user-creation call of the C2 scenario, with a
distinct email. -/
def bobData : UserData :=
  { username := some "bob", email := some "b@x.com", password := some "pw2" }

/-! ### C2 -/

/-- C2: identifiers are not distinct across entities created without a
client-supplied id.  The column default `str(uuid.uuid4())` was evaluated
once at class definition, so the first `POST /users` commits a user whose
id is the fixed `baseDefaultId`, and a second `POST /users` with a fresh
email assigns the very same id and dies on the primary-key constraint
with a 500, leaving the store unchanged. -/
theorem c2_default_id_collision :
    (create_user_route {} aliceData).fst.status = 201 ∧
    ((create_user_route {} aliceData).snd.users.map (fun u => u.id)) = [baseDefaultId] ∧
    (create_user_route (create_user_route {} aliceData).snd bobData).fst =
      ⟨500, jsonMsg "UNIQUE constraint failed: users.id"⟩ ∧
    (create_user_route (create_user_route {} aliceData).snd bobData).snd =
      (create_user_route {} aliceData).snd := by
  refine ⟨rfl, rfl, rfl, rfl⟩

/-! ### C5 -/

/-- C5: evaluating `create_inbox` on the scenario.  A duplicate name for
the same owner is answered 400 `Inbox already exists` (the claim's first
half), but creation by a different user — with a name the owner does not
already use — does not succeed: the handler's first commit inserts the
`Inbox()` row before `from_dict` has populated `name` and `url`, which
violates the schema's NOT NULL constraints, so the call answers 500 and
never 201. -/
theorem c5_create_inbox_eval :
    (create_inbox demoStore "uA" { name := some "work" } "http://h" "i9").fst =
      ⟨400, jsonMsg "Inbox already exists"⟩ ∧
    (create_inbox demoStore "uB" { name := some "work" } "http://h" "i9") =
      (⟨500, jsonMsg "NOT NULL constraint failed: inboxes.name"⟩, demoStore) ∧
    (create_inbox demoStore "uB" { name := some "work" } "http://h" "i9").fst.status ≠ 201 := by
  refine ⟨rfl, rfl, by decide⟩

/-! ### C6 -/

/-- C6: `GET /inboxes/{id}/messages` answers 500 on every request.  Line
306 of `routes.py` calls `.get("user_id")` on the raw `User-Id` header
value, which is a `str` (or `None` when absent); the `AttributeError`
reaches the blueprint's generic exception handler.  In particular the
owner's request is answered 500, not 200, and a non-owner's request is
answered 500, not 401. -/
theorem c6_get_messages_always_500 :
    (∀ (s : Store) (bid : String) (hdr : Option String),
      (get_messages s bid hdr).status = 500) ∧
    get_messages demoStore "i1" (some "uA") =
      ⟨500, jsonMsg "AttributeError: str object has no attribute get"⟩ := by
  constructor
  · intro s bid hdr
    unfold get_messages headerUserIdGet
    cases hdr <;> rfl
  · rfl

/-! ### C7 -/

/-- C7: a create-Inbox request whose JSON body has no `name` key is
answered 500, not 400: line 182 evaluates `data["name"]` before any
presence check, raising `KeyError`.  A present-but-empty `name` does get
the claimed 400. -/
theorem c7_missing_name_gives_500 :
    (create_inbox demoStore "uA" {} "http://h" "i9") =
      (⟨500, jsonMsg "KeyError: name"⟩, demoStore) ∧
    (create_inbox demoStore "uA" { name := some "" } "http://h" "i9").fst =
      ⟨400, jsonMsg "Name is required"⟩ := by
  refine ⟨rfl, rfl⟩

/-! ### C8 -/

/-- C8: the create-Inbox mutations are not one transaction.  The handler
commits twice, and its first commit inserts the `Inbox()` row before
`name` and `url` are populated; against the declared NOT NULL schema that
first commit can never succeed, so `create_inbox` never answers 201 — in
particular a perfectly valid request (existing user, fresh name) is
answered 500 with the store unchanged, rather than committing a
fully-populated inbox atomically. -/
theorem c8_create_inbox_never_commits :
    (∀ (s : Store) (uid : String) (d : InboxData) (base newId : String),
      (create_inbox s uid d base newId).fst.status ≠ 201) ∧
    (create_inbox demoStore "uB" { name := some "fresh" } "http://h" "i9") =
      (⟨500, jsonMsg "NOT NULL constraint failed: inboxes.name"⟩, demoStore) := by
  constructor
  · intro s uid d base newId
    unfold create_inbox
    split
    · simp
    · split
      · simp
      · split
        · simp
        · split
          · simp
          · simp [inboxesInsert]
  · rfl

/-! ### Helper lemmas -/

/-- `Inbox.from_dict` never touches the primary key. -/
theorem inbox_from_dict_id (b : InboxRow) (d : InboxData) :
    (b.from_dict d).id = b.id := by
  unfold InboxRow.from_dict
  rcases d with ⟨dn, du, dl⟩
  cases dn <;> cases du <;> cases dl <;> rfl

/-- `Message.from_dict` never touches the primary key. -/
theorem message_from_dict_id (m : MessageRow) (d : MessageData) :
    (m.from_dict d).id = m.id := by
  unfold MessageRow.from_dict
  rcases d with ⟨ds, db, dr, di⟩
  cases ds <;> cases db <;> cases dr <;> cases di <;> rfl

/-- The `url` entry of an inbox representation is always the
server-derived `/inboxes/{id}`. -/
theorem jsonLookup_url_to_dict (b : InboxRow) :
    jsonLookup "url" (.obj b.to_dict) = some (.str ("/inboxes/" ++ b.id)) := rfl

/-! ### C1 -/

/-- C1 counterexample: `userB` is not the owner of inbox `i1`
(`inboxWork.user_id = some "uA"`), yet a PUT whose body lacks `name`
is answered 400 `Name is required` — the body validation runs before the
ownership check — instead of the claimed 401 Unauthorized. -/
theorem c1_counterexample :
    inboxWork.user_id = some "uA" ∧
    (update_inbox demoStore "uB" "i1" {}).fst = ⟨400, jsonMsg "Name is required"⟩ ∧
    (update_inbox demoStore "uB" "i1" {}).fst.status ≠ 401 := by
  refine ⟨rfl, rfl, by decide⟩

/-- C1 (amended): for an existing inbox `b`, GET, PUT and DELETE succeed
only when `b.user_id` equals the authenticated identity.  A non-owner GET
or DELETE is answered exactly 401 with the constant `Unauthorized` body
(no inbox contents), as is a non-owner PUT whose body passes validation;
a non-owner PUT that fails body validation is answered 400 with the
constant `Name is required` body — still revealing no inbox contents. -/
theorem c1_inbox_ownership (s : Store) (cur bid : String) (b : InboxRow) (d : InboxData)
    (hb : s.inboxes.find? (fun x => x.id == bid) = some b) :
    ((get_inbox s cur bid).status < 400 → b.user_id = some cur) ∧
    ((update_inbox s cur bid d).fst.status < 400 → b.user_id = some cur) ∧
    ((delete_inbox s cur bid).fst.status < 400 → b.user_id = some cur) ∧
    (b.user_id ≠ some cur →
      get_inbox s cur bid = ⟨401, jsonMsg "Unauthorized"⟩ ∧
      delete_inbox s cur bid = (⟨401, jsonMsg "Unauthorized"⟩, s) ∧
      (presentNonEmpty d.name = true →
        update_inbox s cur bid d = (⟨401, jsonMsg "Unauthorized"⟩, s)) ∧
      ((update_inbox s cur bid d).fst = ⟨401, jsonMsg "Unauthorized"⟩ ∨
        (update_inbox s cur bid d).fst = ⟨400, jsonMsg "Name is required"⟩)) := by
  by_cases hown : b.user_id = some cur
  · exact ⟨fun _ => hown, fun _ => hown, fun _ => hown, fun hne => absurd hown hne⟩
  · have hbne : (b.user_id != some cur) = true := by simp [hown]
    have hget : get_inbox s cur bid = ⟨401, jsonMsg "Unauthorized"⟩ := by
      simp [get_inbox, hb, hbne]
    have hdel : delete_inbox s cur bid = (⟨401, jsonMsg "Unauthorized"⟩, s) := by
      simp [delete_inbox, hb, hbne]
    have hupd2 : presentNonEmpty d.name = true →
        update_inbox s cur bid d = (⟨401, jsonMsg "Unauthorized"⟩, s) := by
      intro hp
      simp [update_inbox, hp, hb, hbne]
    have hupd : (update_inbox s cur bid d).fst = ⟨401, jsonMsg "Unauthorized"⟩ ∨
        (update_inbox s cur bid d).fst = ⟨400, jsonMsg "Name is required"⟩ := by
      cases hpn : presentNonEmpty d.name
      · right
        simp [update_inbox, hpn]
      · left
        rw [hupd2 hpn]
    refine ⟨?_, ?_, ?_, fun _ => ⟨hget, hdel, hupd2, hupd⟩⟩
    · intro h
      rw [hget] at h
      exact absurd h (by decide)
    · intro h
      rcases hupd with h2 | h2 <;> rw [h2] at h <;> exact absurd h (by decide)
    · intro h
      rw [hdel] at h
      simp at h

/-- C1 witness: in the concrete scenario, the non-owner `uB` gets the
constant 401 from GET, DELETE and a validation-passing PUT on `i1`. -/
theorem c1_witness :
    get_inbox demoStore "uB" "i1" = ⟨401, jsonMsg "Unauthorized"⟩ ∧
    delete_inbox demoStore "uB" "i1" = (⟨401, jsonMsg "Unauthorized"⟩, demoStore) ∧
    update_inbox demoStore "uB" "i1" { name := some "x" } =
      (⟨401, jsonMsg "Unauthorized"⟩, demoStore) := by
  have h := c1_inbox_ownership demoStore "uB" "i1" inboxWork { name := some "x" } rfl
  have h2 := h.2.2.2 (by decide)
  exact ⟨h2.1, h2.2.1, h2.2.2.1 rfl⟩

/-! ### C3 -/

/-- C3: for a registered user (the store's lookup by email finds `u`,
whose stored digest is the bcrypt hash of `pw`), login with the correct
password answers 200 with the user's public representation and issues a
session bound to `u.id` expiring 24 hours after `now`; `resolve` on that
session yields identity `u.id` at any time before expiry and
`Unauthenticated` (`none`) at any time from expiry on. -/
theorem c3_login_session_lifecycle (s : Store) (u : UserRow) (em pw : String) (now : Nat)
    (hem : em ≠ "") (hpw : pw ≠ "")
    (hfind : s.users.find? (fun x => x.email == some em) = some u)
    (hpass : u.password = some (bcryptHash pw))
    (hid : s.users.find? (fun x => x.id == u.id) = some u) :
    login s (some em) (some pw) now =
      (⟨200, .obj u.to_dict⟩, some ⟨u.id, now + 24 * 60 * 60⟩) ∧
    (∀ t, t < now + 24 * 60 * 60 →
      (resolve s (some ⟨u.id, now + 24 * 60 * 60⟩) t).map (fun x => x.id) = some u.id) ∧
    (∀ t, now + 24 * 60 * 60 ≤ t →
      resolve s (some ⟨u.id, now + 24 * 60 * 60⟩) t = none) := by
  have hpe : presentNonEmpty (some em) = true := by simp [presentNonEmpty, hem]
  have hpp : presentNonEmpty (some pw) = true := by simp [presentNonEmpty, hpw]
  refine ⟨?_, ?_, ?_⟩
  · simp [login, hpe, hpp, hfind, hpass, bcryptCheck, login_user]
  · intro t ht
    simp [resolve, ht, hid]
  · intro t ht
    have hnot : ¬ (t < now + 24 * 60 * 60) := by omega
    simp [resolve, hnot]

/-- C3 witness: `userA` logs in with the correct password at time 100;
the session expires at 100 + 86400; resolution succeeds at 5000 and
fails at 86500. -/
theorem c3_witness :
    login demoStore (some "a@x") (some "pwA") 100 =
      (⟨200, .obj userA.to_dict⟩, some ⟨userA.id, 100 + 24 * 60 * 60⟩) ∧
    (resolve demoStore (some ⟨userA.id, 100 + 24 * 60 * 60⟩) 5000).map (fun x => x.id) =
      some userA.id ∧
    resolve demoStore (some ⟨userA.id, 100 + 24 * 60 * 60⟩) 86500 = none := by
  have h := c3_login_session_lifecycle demoStore userA "a@x" "pwA" 100
    (by decide) (by decide) rfl rfl rfl
  exact ⟨h.1, h.2.1 5000 (by omega), h.2.2 86500 (by omega)⟩

/-! ### C4 -/

/-- C4 counterexample: the owner's PUT on `i1` with `url: "evil"` in the
body succeeds and overwrites the stored `url` column with the
client-supplied value, which is neither the stored server-derived value
`http://h/inboxes/i1` nor the representation-derived `/inboxes/i1` —
so the stored URL does differ from the server-derived value. -/
theorem c4_counterexample :
    (update_inbox demoStore "uA" "i1" { name := some "n2", url := some "evil" }).fst.status
      = 200 ∧
    ((update_inbox demoStore "uA" "i1" { name := some "n2", url := some "evil" }).snd.inboxes.map
        (fun b => b.url)) = [some "evil"] ∧
    inboxWork.url = some "http://h/inboxes/i1" ∧
    ("evil" : String) ≠ "http://h/inboxes/i1" ∧
    ("evil" : String) ≠ "/inboxes/" ++ "i1" := by
  refine ⟨rfl, rfl, rfl, by decide, by decide⟩

/-- C4 (amended): the URL in responses is always derived server-side:
any successful PUT or GET on `/inboxes/{id}` answers a body whose `url`
field is exactly `/inboxes/{id}`, whatever the request body contained
(`to_dict` recomputes it and ignores the stored column).  However, a PUT
whose body contains a `url` key does overwrite the stored `url` column
with the client value, as the counterexample shows. -/
theorem c4_response_url_server_derived (s : Store) (cur bid : String) (d : InboxData) :
    ((update_inbox s cur bid d).fst.status = 200 →
      jsonLookup "url" (update_inbox s cur bid d).fst.body =
        some (.str ("/inboxes/" ++ bid))) ∧
    ((get_inbox s cur bid).status = 200 →
      jsonLookup "url" (get_inbox s cur bid).body = some (.str ("/inboxes/" ++ bid))) := by
  constructor
  · cases hpn : presentNonEmpty d.name
    · intro h
      simp [update_inbox, hpn] at h
    · rcases hf : s.inboxes.find? (fun x => x.id == bid) with _ | b
      · intro h
        simp [update_inbox, hpn, hf] at h
      · have hbid : b.id = bid := by simpa using List.find?_some hf
        cases hbu : (b.user_id != some cur)
        · intro h200
          have hbody : (update_inbox s cur bid d).fst.body = .obj ((b.from_dict d).to_dict) ∧
              (update_inbox s cur bid d).fst.status = 200 ∨
              (update_inbox s cur bid d).fst.status = 500 := by
            simp only [update_inbox, hpn, hf, hbu, Bool.false_eq_true, if_false]
            rcases hcommit : inboxesUpdate s b.id (b.from_dict d) with e | s2
            · right; rfl
            · left; exact ⟨rfl, rfl⟩
          rcases hbody with ⟨hb2, _⟩ | h5
          · rw [hb2, jsonLookup_url_to_dict, inbox_from_dict_id, hbid]
          · exfalso
            omega
        · intro h
          simp [update_inbox, hpn, hf, hbu] at h
  · rcases hf : s.inboxes.find? (fun x => x.id == bid) with _ | b
    · intro h
      simp [get_inbox, hf] at h
    · have hbid : b.id = bid := by simpa using List.find?_some hf
      cases hbu : (b.user_id != some cur)
      · intro _
        have hb2 : (get_inbox s cur bid).body = .obj b.to_dict := by
          simp [get_inbox, hf, hbu]
        rw [hb2, jsonLookup_url_to_dict, hbid]
      · intro h
        simp [get_inbox, hf, hbu] at h

/-- C4 witness: the owner's PUT with a client-supplied `url` answers 200
and its body's `url` field is the server-derived `/inboxes/i1`. -/
theorem c4_witness :
    (update_inbox demoStore "uA" "i1" { name := some "n2", url := some "client" }).fst.status
      = 200 ∧
    jsonLookup "url"
      (update_inbox demoStore "uA" "i1" { name := some "n2", url := some "client" }).fst.body =
      some (.str ("/inboxes/" ++ "i1")) := by
  exact ⟨rfl,
    (c4_response_url_server_derived demoStore "uA" "i1"
      { name := some "n2", url := some "client" }).1 rfl⟩

/-! ### C9 -/

/-- C9: a successful `POST /inboxes/{pid}/messages` commits a message
whose `inbox_id` is the path inbox's id — `inbox.messages.append`
rebinds the row after `from_dict`, so a different client-supplied
`inbox_id` in the body is overridden — and the response body's
`inbox_id` field equals the path inbox id. -/
theorem c9_message_attached_to_path_inbox (s : Store) (pid : String) (d : MessageData)
    (newId : String) (b : InboxRow)
    (hb : s.inboxes.find? (fun x => x.id == pid) = some b)
    (hfresh : s.messages.any (fun x => x.id == newId) = false) :
    (create_message s pid d newId).fst.status = 201 ∧
    jsonLookup "inbox_id" (create_message s pid d newId).fst.body = some (.str pid) ∧
    (∃ m : MessageRow,
      (create_message s pid d newId).snd.messages = s.messages ++ [m] ∧
      m.inbox_id = some pid) := by
  have hbid : b.id = pid := by simpa using List.find?_some hb
  have hfresh2 : s.messages.any
      (fun x => x.id == ({ MessageRow.from_dict { id := newId } d with
        inbox_id := some b.id }).id) = false := by
    simpa [message_from_dict_id] using hfresh
  refine ⟨?_, ?_, ?_⟩
  · simp [create_message, hb, messagesInsert, hfresh2]
  · simp only [create_message, hb, messagesInsert, hfresh2, Bool.false_eq_true, if_false]
    simp [jsonLookup, MessageRow.to_dict, optJ, hbid]
  · refine ⟨({ MessageRow.from_dict { id := newId } d with
      inbox_id := some b.id
      read := some ((MessageRow.from_dict { id := newId } d).read.getD false) }), ?_, ?_⟩
    · simp only [create_message, hb, messagesInsert, hfresh2, Bool.false_eq_true, if_false]
    · simp [hbid]

/-- C9 witness: posting to `/inboxes/i1/messages` with body
`inbox_id: "OTHER"` creates a message attached to `i1`. -/
theorem c9_witness :
    (create_message demoStore "i1"
      { subject := some "hi", inbox_id := some "OTHER" } "m1").fst.status = 201 ∧
    jsonLookup "inbox_id"
      (create_message demoStore "i1"
        { subject := some "hi", inbox_id := some "OTHER" } "m1").fst.body =
      some (.str "i1") ∧
    (∃ m : MessageRow,
      (create_message demoStore "i1"
        { subject := some "hi", inbox_id := some "OTHER" } "m1").snd.messages =
        demoStore.messages ++ [m] ∧
      m.inbox_id = some "i1") := by
  exact c9_message_attached_to_path_inbox demoStore "i1"
    { subject := some "hi", inbox_id := some "OTHER" } "m1" inboxWork rfl rfl

/-! ### C10 -/

/-- A response body that cannot leak the stored password hash: either a
public user representation (`User.to_dict`) or a bare message object. -/
def userBody (bd : Body) : Prop :=
  (∃ u : UserRow, bd = .obj u.to_dict) ∨ (∃ m : String, bd = jsonMsg m)

/-- C10: the public user representation has exactly the keys `id`,
`username`, `email`, `created_at`, `updated_at` — never `password` — and
every response body of the six user-returning handlers (get user, create
user, update user, register, login, account) is either such a
representation or a bare message object. -/
theorem c10_user_repr_no_password :
    (∀ u : UserRow,
      u.to_dict.map Prod.fst = ["id", "username", "email", "created_at", "updated_at"]) ∧
    (∀ u : UserRow, "password" ∉ u.to_dict.map Prod.fst) ∧
    (∀ s uid, userBody (get_user s uid).body) ∧
    (∀ s d nid, userBody (create_user s d nid).fst.body) ∧
    (∀ s uid d, userBody (update_user s uid d).fst.body) ∧
    (∀ s a mp f nid, userBody (register s a mp f nid).fst.body) ∧
    (∀ s e p now, userBody (login s e p now).fst.body) ∧
    (∀ s sess now, userBody (account s sess now).body) := by
  refine ⟨fun u => rfl, fun u => by simp [UserRow.to_dict], ?_, ?_, ?_, ?_, ?_, ?_⟩
  · intro s uid
    unfold get_user
    split
    · exact Or.inr ⟨_, rfl⟩
    · exact Or.inl ⟨_, rfl⟩
  · intro s d nid
    unfold create_user
    dsimp only
    split
    · exact Or.inr ⟨_, rfl⟩
    · split
      · exact Or.inr ⟨_, rfl⟩
      · split
        · exact Or.inr ⟨_, rfl⟩
        · split
          · exact Or.inr ⟨_, rfl⟩
          · split
            · exact Or.inr ⟨_, rfl⟩
            · exact Or.inl ⟨_, rfl⟩
  · intro s uid d
    unfold update_user
    dsimp only
    split
    · exact Or.inr ⟨_, rfl⟩
    · split
      · exact Or.inr ⟨_, rfl⟩
      · split
        · exact Or.inr ⟨_, rfl⟩
        · split
          · exact Or.inr ⟨_, rfl⟩
          · split
            · exact Or.inr ⟨_, rfl⟩
            · split
              · exact Or.inr ⟨_, rfl⟩
              · exact Or.inl ⟨_, rfl⟩
  · intro s a mp f nid
    unfold register
    dsimp only
    split
    · exact Or.inr ⟨_, rfl⟩
    · split
      · split
        · exact Or.inr ⟨_, rfl⟩
        · split
          · exact Or.inr ⟨_, rfl⟩
          · split
            · exact Or.inr ⟨_, rfl⟩
            · split
              · exact Or.inr ⟨_, rfl⟩
              · split
                · exact Or.inr ⟨_, rfl⟩
                · exact Or.inl ⟨_, rfl⟩
      · exact Or.inr ⟨_, rfl⟩
  · intro s e p now
    unfold login
    split
    · exact Or.inr ⟨_, rfl⟩
    · split
      · exact Or.inr ⟨_, rfl⟩
      · split
        · exact Or.inr ⟨_, rfl⟩
        · split
          · split
            · exact Or.inl ⟨_, rfl⟩
            · exact Or.inr ⟨_, rfl⟩
          · exact Or.inr ⟨_, rfl⟩
  · intro s sess now
    unfold account
    split
    · exact Or.inr ⟨_, rfl⟩
    · exact Or.inl ⟨_, rfl⟩

end Whispers
